import Mathlib

/-!
Shallow embedding of the VHAP utility module `vhap/util/log.py`.

The module has two independent parts:

* `get_logger`, a configuring wrapper around the standard `logging`
  facility: it sets the severity threshold of the name-keyed logger and,
  when `root` is true, attaches a colored console handler, disables
  propagation, and optionally attaches a plain file handler writing to a
  timestamp-named file inside `log_dir`.

* `tqdm_joblib`, a context manager that temporarily replaces the global
  `joblib.parallel.BatchCompletionCallBack` class with a subclass that
  advances a tqdm progress bar by the batch size before delegating to the
  original behavior, restoring the original class and closing the bar on
  exit.

Loggers, handlers, directories, file contents, stdout and the atexit
registry are modelled explicitly in a `World` record; `get_logger` is a
function from `World` to `World`.  The progress-scope part is modelled over
a `ScopeState` carrying the identity of the globally installed callback
class and the progress-bar counters.
-/

namespace VHAP

/-! ### Severity levels (numeric values of the Python logging module) -/

def NOTSET : Nat := 0

def DEBUG : Nat := 10

def INFO : Nat := 20

def WARNING : Nat := 30

def ERROR : Nat := 40

def CRITICAL : Nat := 50

/-- The level names used by the logging module in formatted records. -/
def levelName (n : Nat) : String :=
  if n = 50 then "CRITICAL"
  else if n = 40 then "ERROR"
  else if n = 30 then "WARNING"
  else if n = 20 then "INFO"
  else if n = 10 then "DEBUG"
  else if n = 0 then "NOTSET"
  else "Level " ++ toString n

/-! ### Colors and formatting -/

/-- The color keys of the dictionary inside the `_colored` helper. -/
inductive Color where
  | red
  | green
  | yellow
  | normal
deriving DecidableEq

/-- The ANSI escape codes of the dictionary inside `_colored`. -/
def colors : Color → String
  | Color.red => "\x1b[91m"
  | Color.green => "\x1b[92m"
  | Color.yellow => "\x1b[93m"
  | Color.normal => "\x1b[0m"

/-- The helper `_colored(msg, color)`: wraps `msg` in the escape code of
`color` followed by the reset code. -/
def _colored (msg : String) (color : Color) : String :=
  colors color ++ msg ++ colors Color.normal

/-- A log record as seen by a formatter: the logger name, the numeric
severity, the message, and the already-rendered timestamp (both formatters
of the module use the date format "%m/%d %H:%M:%S"). -/
structure LogRecord where
  name : String
  levelno : Nat
  message : String
  asctime : String
deriving DecidableEq

/-- The base format of the console handler:
`_colored("[%(asctime)s %(name)s]: ", "green") + "%(message)s"`. -/
def consoleFmt (r : LogRecord) : String :=
  _colored ("[" ++ r.asctime ++ " " ++ r.name ++ "]: ") Color.green ++ r.message

/-- `ColorFormatter.formatMessage`: formats with the base console format,
then prepends a colored "WARNING" (yellow) or "ERROR" (red) tag and a space
at WARNING resp. ERROR/CRITICAL severity. -/
def ColorFormatter.formatMessage (r : LogRecord) : String :=
  let log := consoleFmt r
  if r.levelno = WARNING then
    _colored "WARNING" Color.yellow ++ " " ++ log
  else if r.levelno = ERROR ∨ r.levelno = CRITICAL then
    _colored "ERROR" Color.red ++ " " ++ log
  else
    log

/-- The plain format of the file handler:
`"[%(asctime)s] %(name)s %(levelname)s: %(message)s"`. -/
def fileFmt (r : LogRecord) : String :=
  "[" ++ r.asctime ++ "] " ++ r.name ++ " " ++ levelName r.levelno ++ ": " ++ r.message

/-- Which formatter a handler carries. -/
inductive FormatterKind where
  | color
  | plain
deriving DecidableEq

def formatRecord : FormatterKind → LogRecord → String
  | FormatterKind.color, r => ColorFormatter.formatMessage r
  | FormatterKind.plain, r => fileFmt r

/-! ### Handlers, loggers and the world state -/

/-- Where a stream handler writes: stdout, or an open file stream named by
its path. -/
inductive SinkTarget where
  | console
  | file (path : String)
deriving DecidableEq

/-- A configured `logging.StreamHandler`: its target stream, its severity
threshold and its formatter. -/
structure Handler where
  target : SinkTarget
  level : Nat
  formatter : FormatterKind
deriving DecidableEq

/-- A logger object of the logging module: severity threshold, attached
handlers, propagation flag. -/
structure Logger where
  level : Nat
  handlers : List Handler
  propagate : Bool
deriving DecidableEq

/-- A freshly created logger: level NOTSET, no handlers, propagates. -/
def defaultLogger : Logger :=
  { level := NOTSET, handlers := [], propagate := true }

/-- A wall-clock instant, as produced by `datetime.now()`. -/
structure DateTime where
  year : Nat
  month : Nat
  day : Nat
  hour : Nat
  minute : Nat
  second : Nat
deriving DecidableEq

/-- Zero-padding to two digits, as strftime does for the fields used here. -/
def pad2 (n : Nat) : String :=
  if n < 10 then "0" ++ toString n else toString n

/-- Zero-padding to four digits, as strftime %Y does. -/
def pad4 (n : Nat) : String :=
  if n < 10 then "000" ++ toString n
  else if n < 100 then "00" ++ toString n
  else if n < 1000 then "0" ++ toString n
  else toString n

/-- strftime "%m/%d %H:%M:%S", the datefmt of both formatters. -/
def asctimeFmt (t : DateTime) : String :=
  pad2 t.month ++ "/" ++ pad2 t.day ++ " "
    ++ pad2 t.hour ++ ":" ++ pad2 t.minute ++ ":" ++ pad2 t.second

/-- strftime "%d-%m-%Y_%H-%M-%S", the log-file name stem. -/
def timestampFmt (t : DateTime) : String :=
  pad2 t.day ++ "-" ++ pad2 t.month ++ "-" ++ pad4 t.year ++ "_"
    ++ pad2 t.hour ++ "-" ++ pad2 t.minute ++ "-" ++ pad2 t.second

/-- The observable state `get_logger` acts on: the name-keyed logger
registry, the set of existing directories, the file contents (`none` means
the file does not exist), the streams registered with atexit for closing,
the lines written to stdout, and the current wall clock. -/
structure World where
  loggers : String → Logger
  dirs : List String
  files : String → Option String
  atexitStreams : List String
  consoleOut : List String
  now : DateTime

/-- Store a logger under its name in the registry. -/
def World.setLogger (w : World) (name : String) (lg : Logger) : World :=
  { w with loggers := fun n => if n = name then lg else w.loggers n }

/-- Build the record handed to the formatters when a message is emitted. -/
def mkRecord (name : String) (levelno : Nat) (msg : String) (t : DateTime) : LogRecord :=
  { name := name, levelno := levelno, message := msg, asctime := asctimeFmt t }

/-- A stream handler emitting one formatted line: stdout handlers append the
line to stdout, file handlers append the line plus the terminator to the
open file. -/
def writeLine (w : World) (t : SinkTarget) (line : String) : World :=
  match t with
  | SinkTarget.console => { w with consoleOut := w.consoleOut ++ [line] }
  | SinkTarget.file p =>
      { w with files := fun q =>
          if q = p then
            match w.files p with
            | some c => some (c ++ line ++ "\n")
            | none => none
          else w.files q }

/-- One handler processing a record: it emits only when the record severity
reaches the handler threshold. -/
def handleRecord (r : LogRecord) (w : World) (h : Handler) : World :=
  if h.level ≤ r.levelno then writeLine w h.target (formatRecord h.formatter r) else w

/-- A logger emitting a message at severity `levelno`: when the logger
threshold is reached, every attached handler processes the record, and when
the propagation flag is set the handlers of the ancestor (root) logger
process it as well. -/
def emit (w : World) (name : String) (levelno : Nat) (msg : String) : World :=
  let lg := w.loggers name
  if lg.level ≤ levelno then
    let r := mkRecord name levelno msg w.now
    let w1 := (lg.handlers).foldl (handleRecord r) w
    if lg.propagate && name ≠ "" then
      ((w1.loggers "").handlers).foldl (handleRecord r) w1
    else w1
  else w

/-- The embedding of `get_logger(name, level, root, log_dir)`.

The Python function returns the name-keyed logger object; here the registry
entry `(result).loggers name` plays that role, and the function returns the
updated world.  Faithful to the source order: set the level; when `root`,
append a console handler with the `ColorFormatter`, clear the propagation
flag; when `log_dir` is given, check existence, emit the informational
message and create the directory when it is absent, then open
`log_dir/<timestamp>.log` in write mode (creating or truncating it),
register the stream with atexit, and append a plain-formatter file handler.
`mkdir(parents=True)` is modelled as making just `log_dir` exist. -/
def get_logger (name : String) (level : Nat) (root : Bool) (log_dir : Option String)
    (w : World) : World :=
  let logger := w.loggers name
  let logger := { logger with level := level }
  let w := w.setLogger name logger
  if root then
    let console_handler : Handler :=
      { target := SinkTarget.console, level := level, formatter := FormatterKind.color }
    let logger := { logger with
      handlers := logger.handlers ++ [console_handler], propagate := false }
    let w := w.setLogger name logger
    match log_dir with
    | none => w
    | some dirPath =>
        let w :=
          if dirPath ∈ w.dirs then w
          else
            let w := emit w name INFO
              ("Logging directory " ++ dirPath ++ " does not exist and will be created")
            { w with dirs := dirPath :: w.dirs }
        let timestamp := timestampFmt w.now
        let log_file := dirPath ++ "/" ++ timestamp ++ ".log"
        let w := { w with
          files := fun q => if q = log_file then some "" else w.files q,
          atexitStreams := log_file :: w.atexitStreams }
        let file_handler : Handler :=
          { target := SinkTarget.file log_file, level := level, formatter := FormatterKind.plain }
        let logger := { logger with handlers := logger.handlers ++ [file_handler] }
        w.setLogger name logger
  else
    w

/-- Several successive root-configuring calls with identical arguments. -/
def iterate_get_logger (name : String) (level : Nat) (log_dir : Option String) :
    Nat → World → World
  | 0, w => w
  | n + 1, w => iterate_get_logger name level log_dir n (get_logger name level true log_dir w)

/-- Number of console sinks attached to a logger. -/
def consoleCount (lg : Logger) : Nat :=
  (lg.handlers.filter fun h =>
    match h.target with
    | SinkTarget.console => true
    | SinkTarget.file _ => false).length

/-- Number of file sinks attached to a logger. -/
def fileCount (lg : Logger) : Nat :=
  (lg.handlers.filter fun h =>
    match h.target with
    | SinkTarget.console => false
    | SinkTarget.file _ => true).length

/-! ### The tqdm_joblib progress scope -/

/-- State visible to the progress scope: the identity of the class currently
installed as `joblib.parallel.BatchCompletionCallBack` (a process-wide
global), the position of the tqdm progress bar, the number of `close` calls
the bar has received, and abstract further state `σ` of the wrapped code. -/
structure ScopeState (σ : Type) where
  batchCompletionCallBack : Nat
  tqdmPos : Nat
  tqdmCloseCount : Nat
  inner : σ
deriving DecidableEq

/-- The result of running a Python block: a value, or an exception that the
block raised. -/
inductive PyResult (ρ : Type) where
  | ok (v : ρ)
  | raised (e : Nat)
deriving DecidableEq

/-- `tqdm_object.update` with keyword argument n: advance the bar by n. -/
def tqdm_update {σ : Type} (n : Nat) (s : ScopeState σ) : ScopeState σ :=
  { s with tqdmPos := s.tqdmPos + n }

/-- `tqdm_object.close()`: counted, so "closed exactly once" is statable. -/
def tqdm_close {σ : Type} (s : ScopeState σ) : ScopeState σ :=
  { s with tqdmCloseCount := s.tqdmCloseCount + 1 }

/-- The identity of the `TqdmBatchCompletionCallback` subclass defined on
entry of the scope (distinct from whatever was installed before). -/
def TqdmBatchCompletionCallbackId : Nat := 1

/-- The embedding of the `tqdm_joblib` context manager wrapped around a
block `body`: save the installed callback class, install the tqdm-aware
subclass, run the block (which may finish with a value or with a raised
exception, and may itself read or write the whole state), and in the
`finally` clause restore the saved class and close the bar; the result of
the block, exceptional or not, passes through unchanged. -/
def tqdm_joblib {σ ρ : Type} (body : ScopeState σ → PyResult ρ × ScopeState σ)
    (s : ScopeState σ) : PyResult ρ × ScopeState σ :=
  let old_batch_callback := s.batchCompletionCallBack
  let s1 := { s with batchCompletionCallBack := TqdmBatchCompletionCallbackId }
  let res := body s1
  (res.1, tqdm_close { res.2 with batchCompletionCallBack := old_batch_callback })

/-- The piece of a batch-completion callback object the replacement reads:
its `batch_size` attribute. -/
structure BatchCallbackSelf where
  batch_size : Nat

/-- The `__call__` of the `TqdmBatchCompletionCallback` subclass installed
by the scope: advance the bar by `self.batch_size`, then delegate to the
original `__call__` with the same object and the same arguments, returning
its result.  `superCall` is the original class behavior, given access to
the same state. -/
def TqdmBatchCompletionCallback.call {α σ ρ : Type}
    (superCall : BatchCallbackSelf → α → ScopeState σ → ρ × ScopeState σ)
    (self : BatchCallbackSelf) (args : α) (s : ScopeState σ) : ρ × ScopeState σ :=
  superCall self args (tqdm_update self.batch_size s)

/-! ### Concrete worlds used to instantiate the theorems -/

/-- A small concrete world: empty registry, empty filesystem, fixed clock. -/
def sampleWorld : World :=
  { loggers := fun _ => defaultLogger, dirs := [], files := fun _ => none,
    atexitStreams := [], consoleOut := [],
    now := { year := 2026, month := 10, day := 12, hour := 1, minute := 2, second := 3 } }

/-- A world where the log directory and the timestamp-named log file already
exist with nonempty content, as after an earlier sub-second root call. -/
def sampleWorldCollision : World :=
  { loggers := fun _ => defaultLogger, dirs := ["logs"],
    files := fun p => if p = "logs/12-10-2026_01-02-03.log" then some "old content\n" else none,
    atexitStreams := [], consoleOut := [],
    now := { year := 2026, month := 10, day := 12, hour := 1, minute := 2, second := 3 } }

/-! ### Helper lemmas: which world components each operation preserves -/

theorem writeLine_loggers (w : World) (t : SinkTarget) (line : String) :
    (writeLine w t line).loggers = w.loggers := by
  cases t <;> rfl

theorem writeLine_now (w : World) (t : SinkTarget) (line : String) :
    (writeLine w t line).now = w.now := by
  cases t <;> rfl

theorem writeLine_dirs (w : World) (t : SinkTarget) (line : String) :
    (writeLine w t line).dirs = w.dirs := by
  cases t <;> rfl

theorem writeLine_atexitStreams (w : World) (t : SinkTarget) (line : String) :
    (writeLine w t line).atexitStreams = w.atexitStreams := by
  cases t <;> rfl

theorem handleRecord_loggers (r : LogRecord) (w : World) (h : Handler) :
    (handleRecord r w h).loggers = w.loggers := by
  unfold handleRecord
  split
  · exact writeLine_loggers ..
  · rfl

theorem handleRecord_now (r : LogRecord) (w : World) (h : Handler) :
    (handleRecord r w h).now = w.now := by
  unfold handleRecord
  split
  · exact writeLine_now ..
  · rfl

theorem handleRecord_dirs (r : LogRecord) (w : World) (h : Handler) :
    (handleRecord r w h).dirs = w.dirs := by
  unfold handleRecord
  split
  · exact writeLine_dirs ..
  · rfl

theorem handleRecord_atexitStreams (r : LogRecord) (w : World) (h : Handler) :
    (handleRecord r w h).atexitStreams = w.atexitStreams := by
  unfold handleRecord
  split
  · exact writeLine_atexitStreams ..
  · rfl

theorem foldl_handleRecord_loggers (r : LogRecord) (hs : List Handler) :
    ∀ w : World, (hs.foldl (handleRecord r) w).loggers = w.loggers := by
  induction hs with
  | nil => intro w; rfl
  | cons hd tl ih =>
      intro w
      simp only [List.foldl_cons]
      rw [ih, handleRecord_loggers]

theorem foldl_handleRecord_now (r : LogRecord) (hs : List Handler) :
    ∀ w : World, (hs.foldl (handleRecord r) w).now = w.now := by
  induction hs with
  | nil => intro w; rfl
  | cons hd tl ih =>
      intro w
      simp only [List.foldl_cons]
      rw [ih, handleRecord_now]

theorem foldl_handleRecord_dirs (r : LogRecord) (hs : List Handler) :
    ∀ w : World, (hs.foldl (handleRecord r) w).dirs = w.dirs := by
  induction hs with
  | nil => intro w; rfl
  | cons hd tl ih =>
      intro w
      simp only [List.foldl_cons]
      rw [ih, handleRecord_dirs]

theorem foldl_handleRecord_atexitStreams (r : LogRecord) (hs : List Handler) :
    ∀ w : World, (hs.foldl (handleRecord r) w).atexitStreams = w.atexitStreams := by
  induction hs with
  | nil => intro w; rfl
  | cons hd tl ih =>
      intro w
      simp only [List.foldl_cons]
      rw [ih, handleRecord_atexitStreams]

theorem emit_loggers (w : World) (name : String) (lv : Nat) (msg : String) :
    (emit w name lv msg).loggers = w.loggers := by
  simp only [emit]
  split
  · split
    · rw [foldl_handleRecord_loggers, foldl_handleRecord_loggers]
    · rw [foldl_handleRecord_loggers]
  · rfl

theorem emit_now (w : World) (name : String) (lv : Nat) (msg : String) :
    (emit w name lv msg).now = w.now := by
  simp only [emit]
  split
  · split
    · rw [foldl_handleRecord_now, foldl_handleRecord_now]
    · rw [foldl_handleRecord_now]
  · rfl

theorem emit_dirs (w : World) (name : String) (lv : Nat) (msg : String) :
    (emit w name lv msg).dirs = w.dirs := by
  simp only [emit]
  split
  · split
    · rw [foldl_handleRecord_dirs, foldl_handleRecord_dirs]
    · rw [foldl_handleRecord_dirs]
  · rfl

theorem emit_atexitStreams (w : World) (name : String) (lv : Nat) (msg : String) :
    (emit w name lv msg).atexitStreams = w.atexitStreams := by
  simp only [emit]
  split
  · split
    · rw [foldl_handleRecord_atexitStreams, foldl_handleRecord_atexitStreams]
    · rw [foldl_handleRecord_atexitStreams]
  · rfl

theorem setLogger_loggers_self (w : World) (name : String) (lg : Logger) :
    (World.setLogger w name lg).loggers name = lg := by
  simp [World.setLogger]

theorem setLogger_loggers_ne (w : World) (name : String) (lg : Logger) (n : String)
    (h : n ≠ name) : (World.setLogger w name lg).loggers n = w.loggers n := by
  simp [World.setLogger, h]

theorem writeLine_files_of_ne (w : World) (t : SinkTarget) (line : String) (p : String)
    (h : t ≠ SinkTarget.file p) : (writeLine w t line).files p = w.files p := by
  cases t with
  | console => rfl
  | file q =>
      have hqp : p ≠ q := by
        intro he
        exact h (by rw [he])
      simp [writeLine, hqp]

theorem handleRecord_files_of_ne (r : LogRecord) (w : World) (h : Handler) (p : String)
    (ht : h.target ≠ SinkTarget.file p) : (handleRecord r w h).files p = w.files p := by
  unfold handleRecord
  split
  · exact writeLine_files_of_ne w h.target _ p ht
  · rfl

theorem foldl_handleRecord_files_of_ne (r : LogRecord) (hs : List Handler) (p : String) :
    ∀ w : World, (∀ hd ∈ hs, hd.target ≠ SinkTarget.file p) →
      (hs.foldl (handleRecord r) w).files p = w.files p := by
  induction hs with
  | nil => intro w _; rfl
  | cons hd tl ih =>
      intro w hall
      simp only [List.foldl_cons]
      rw [ih _ fun x hx => hall x (List.mem_cons_of_mem hd hx),
        handleRecord_files_of_ne r w hd p (hall hd (List.mem_cons_self hd tl))]

/-! ### Helper lemmas: the shape of the world after a root-configuring call -/

theorem get_logger_root_none_loggers (w : World) (name : String) (level : Nat) :
    (get_logger name level true none w).loggers name =
      { level := level,
        handlers := (w.loggers name).handlers ++
          [{ target := SinkTarget.console, level := level, formatter := FormatterKind.color }],
        propagate := false } := by
  simp [get_logger, World.setLogger]

theorem get_logger_root_some_loggers (w : World) (name : String) (level : Nat) (d : String) :
    (get_logger name level true (some d) w).loggers name =
      { level := level,
        handlers := (w.loggers name).handlers ++
          [{ target := SinkTarget.console, level := level, formatter := FormatterKind.color }] ++
          [{ target := SinkTarget.file (d ++ "/" ++ timestampFmt w.now ++ ".log"),
             level := level, formatter := FormatterKind.plain }],
        propagate := false } := by
  by_cases hd : d ∈ w.dirs <;>
    simp [get_logger, World.setLogger, hd, emit_now]

theorem get_logger_new_dir_components (w : World) (name : String) (level : Nat) (d : String)
    (h0 : (w.loggers name).handlers = []) (hlv : level ≤ INFO) (hd : d ∉ w.dirs) :
    (get_logger name level true (some d) w).dirs = d :: w.dirs ∧
    (get_logger name level true (some d) w).files =
      (fun q => if q = d ++ "/" ++ timestampFmt w.now ++ ".log" then some "" else w.files q) ∧
    (get_logger name level true (some d) w).atexitStreams =
      (d ++ "/" ++ timestampFmt w.now ++ ".log") :: w.atexitStreams ∧
    (get_logger name level true (some d) w).consoleOut =
      w.consoleOut ++
        [ColorFormatter.formatMessage (mkRecord name INFO
          ("Logging directory " ++ d ++ " does not exist and will be created") w.now)] ∧
    (get_logger name level true (some d) w).now = w.now := by
  have hlv20 : level ≤ 20 := hlv
  refine ⟨?_, ?_, ?_, ?_, ?_⟩ <;>
    simp [get_logger, World.setLogger, hd, emit, handleRecord, writeLine, formatRecord,
      mkRecord, h0, hlv20, INFO]

theorem get_logger_old_dir_components (w : World) (name : String) (level : Nat) (d : String)
    (hd : d ∈ w.dirs) :
    (get_logger name level true (some d) w).dirs = w.dirs ∧
    (get_logger name level true (some d) w).files =
      (fun q => if q = d ++ "/" ++ timestampFmt w.now ++ ".log" then some "" else w.files q) ∧
    (get_logger name level true (some d) w).atexitStreams =
      (d ++ "/" ++ timestampFmt w.now ++ ".log") :: w.atexitStreams ∧
    (get_logger name level true (some d) w).consoleOut = w.consoleOut ∧
    (get_logger name level true (some d) w).now = w.now := by
  refine ⟨?_, ?_, ?_, ?_, ?_⟩ <;>
    simp [get_logger, World.setLogger, hd]

theorem emit_console_file_files (w : World) (name : String) (elv : Nat) (msg : String)
    (hlv : Nat) (p : String)
    (hlog : w.loggers name =
      { level := hlv,
        handlers :=
          [{ target := SinkTarget.console, level := hlv, formatter := FormatterKind.color },
           { target := SinkTarget.file p, level := hlv, formatter := FormatterKind.plain }],
        propagate := false })
    (hle : hlv ≤ elv) (hfile : w.files p = some "") :
    (emit w name elv msg).files p = some (fileFmt (mkRecord name elv msg w.now) ++ "\n") := by
  simp [emit, hlog, hle, handleRecord, writeLine, formatRecord, hfile, mkRecord]

theorem get_logger_consoleCount_step (w : World) (name : String) (level : Nat)
    (log_dir : Option String) :
    consoleCount ((get_logger name level true log_dir w).loggers name) =
      consoleCount (w.loggers name) + 1 := by
  cases log_dir with
  | none => rw [get_logger_root_none_loggers]; simp [consoleCount, List.filter_append]
  | some d => rw [get_logger_root_some_loggers]; simp [consoleCount, List.filter_append]

theorem get_logger_fileCount_step (w : World) (name : String) (level : Nat)
    (log_dir : Option String) :
    fileCount ((get_logger name level true log_dir w).loggers name) =
      fileCount (w.loggers name) + (match log_dir with | none => 0 | some _ => 1) := by
  cases log_dir with
  | none => rw [get_logger_root_none_loggers]; simp [fileCount, List.filter_append]
  | some d => rw [get_logger_root_some_loggers]; simp [fileCount, List.filter_append]

theorem iterate_get_logger_counts (name : String) (level : Nat) (log_dir : Option String) :
    ∀ (n : Nat) (w : World),
      consoleCount ((iterate_get_logger name level log_dir n w).loggers name) =
        consoleCount (w.loggers name) + n ∧
      fileCount ((iterate_get_logger name level log_dir n w).loggers name) =
        fileCount (w.loggers name) + n * (match log_dir with | none => 0 | some _ => 1) := by
  intro n
  induction n with
  | zero => intro w; simp [iterate_get_logger]
  | succ k ih =>
      intro w
      simp only [iterate_get_logger]
      constructor
      · rw [(ih _).1, get_logger_consoleCount_step]
        omega
      · rw [(ih _).2, get_logger_fileCount_step]
        cases log_dir with
        | none => simp
        | some d => simp; omega

/-! ### Claim theorems -/

/-- C1: for every wrapped block and every starting state, on exit of
`tqdm_joblib` the global batch-completion callback type equals the value
saved at entry, the progress indicator has received exactly one more
`close` call than the wrapped block left it with, and the result of the
block — normal value or raised exception — passes through unchanged, so an
exception raised inside the block still propagates after the cleanup. -/
theorem tqdm_joblib_cleanup {σ ρ : Type} (body : ScopeState σ → PyResult ρ × ScopeState σ)
    (s : ScopeState σ) :
    (tqdm_joblib body s).2.batchCompletionCallBack = s.batchCompletionCallBack ∧
    (tqdm_joblib body s).2.tqdmCloseCount =
      (body { s with batchCompletionCallBack := TqdmBatchCompletionCallbackId }).2.tqdmCloseCount
        + 1 ∧
    (tqdm_joblib body s).1 =
      (body { s with batchCompletionCallBack := TqdmBatchCompletionCallbackId }).1 :=
  ⟨rfl, rfl, rfl⟩

/-- C2 counterexample: the claim says a console line at WARNING level has the
form green-bracket-tag, reset, colored WARNING tag, message — so it would
have to start with the green escape "\x1b[92m[".  On a concrete WARNING
record the formatter instead PREPENDS the yellow WARNING tag before the
green bracket tag, so the line starts with the yellow escape. -/
theorem console_tag_position_cex :
    ColorFormatter.formatMessage
        { name := "app", levelno := 30, message := "msg", asctime := "01/02 03:04:05" } =
      "\x1b[93mWARNING\x1b[0m \x1b[92m[01/02 03:04:05 app]: \x1b[0mmsg" ∧
    (ColorFormatter.formatMessage
        { name := "app", levelno := 30, message := "msg", asctime := "01/02 03:04:05" }).data.take 6
      ≠ ("\x1b[92m[").data :=
  ⟨by decide, by decide⟩

/-- C2 amended: every console record is the green bracket tag
"\x1b[92m[<MM/DD HH:MM:SS> <name>]: \x1b[0m" followed by the message; at
WARNING level the yellow "WARNING" tag plus a space is prepended BEFORE the
green bracket tag, and at ERROR or CRITICAL the red "ERROR" tag plus a
space is prepended before it; at every other level no tag is added. -/
theorem console_line_format_amended (r : LogRecord) :
    ColorFormatter.formatMessage r =
      if r.levelno = WARNING then
        "\x1b[93mWARNING\x1b[0m " ++
          ("\x1b[92m[" ++ r.asctime ++ " " ++ r.name ++ "]: " ++ "\x1b[0m" ++ r.message)
      else if r.levelno = ERROR ∨ r.levelno = CRITICAL then
        "\x1b[91mERROR\x1b[0m " ++
          ("\x1b[92m[" ++ r.asctime ++ " " ++ r.name ++ "]: " ++ "\x1b[0m" ++ r.message)
      else
        "\x1b[92m[" ++ r.asctime ++ " " ++ r.name ++ "]: " ++ "\x1b[0m" ++ r.message := by
  simp only [ColorFormatter.formatMessage, consoleFmt, _colored, colors]
  split
  · apply String.ext
    simp [String.data_append]
  · split
    · apply String.ext
      simp [String.data_append]
    · apply String.ext
      simp [String.data_append]

/-- C3: after a root-configuring call the logger has its propagation flag
cleared, and therefore an emission through it can only reach its own
handlers: the content of any file stream not targeted by one of its own
handlers — in particular a sentinel sink attached to the ancestor (root)
logger — is left unchanged. -/
theorem root_no_propagate (w : World) (name : String) (level : Nat) (log_dir : Option String)
    (spath : String)
    (hs : ∀ h ∈ ((get_logger name level true log_dir w).loggers name).handlers,
        h.target ≠ SinkTarget.file spath)
    (elv : Nat) (msg : String) :
    ((get_logger name level true log_dir w).loggers name).propagate = false ∧
    (emit (get_logger name level true log_dir w) name elv msg).files spath =
      (get_logger name level true log_dir w).files spath := by
  have hprop : ((get_logger name level true log_dir w).loggers name).propagate = false := by
    cases log_dir with
    | none => rw [get_logger_root_none_loggers]
    | some d => rw [get_logger_root_some_loggers]
  refine ⟨hprop, ?_⟩
  simp only [emit, hprop, Bool.false_and, if_false]
  split
  · exact foldl_handleRecord_files_of_ne _ _ _ _ hs
  · rfl

/-- C3 witness: the theorem applied at a concrete world, with a sentinel
file stream. -/
theorem root_no_propagate_wit :
    ((get_logger "app" 10 true none sampleWorld).loggers "app").propagate = false ∧
    (emit (get_logger "app" 10 true none sampleWorld) "app" 20 "hello").files "sentinel.log" =
      (get_logger "app" 10 true none sampleWorld).files "sentinel.log" :=
  root_no_propagate sampleWorld "app" 10 none "sentinel.log" (by decide) 20 "hello"

/-- C4: a root-configuring call on a logger that previously had no sinks
attaches exactly one sink, the console sink, when no log directory is
given, and exactly two sinks, the console sink and the file sink, when a
log directory is given. -/
theorem root_call_sink_counts (w : World) (name : String) (level : Nat)
    (log_dir : Option String) (h0 : (w.loggers name).handlers = []) :
    (log_dir = none →
      ((get_logger name level true log_dir w).loggers name).handlers =
        [{ target := SinkTarget.console, level := level, formatter := FormatterKind.color }]) ∧
    (∀ d, log_dir = some d →
      ((get_logger name level true log_dir w).loggers name).handlers =
        [{ target := SinkTarget.console, level := level, formatter := FormatterKind.color },
         { target := SinkTarget.file (d ++ "/" ++ timestampFmt w.now ++ ".log"),
           level := level, formatter := FormatterKind.plain }]) := by
  constructor
  · rintro rfl
    rw [get_logger_root_none_loggers]
    simp [h0]
  · rintro d rfl
    rw [get_logger_root_some_loggers]
    simp [h0]

/-- C4 witness: one sink without log_dir, two sinks with log_dir, at a
concrete world. -/
theorem root_call_sink_counts_wit :
    ((get_logger "app" 10 true none sampleWorld).loggers "app").handlers.length = 1 ∧
    ((get_logger "app" 10 true (some "logs") sampleWorld).loggers "app").handlers.length = 2 := by
  constructor
  · rw [(root_call_sink_counts sampleWorld "app" 10 none (by decide)).1 rfl]
    rfl
  · rw [(root_call_sink_counts sampleWorld "app" 10 (some "logs") (by decide)).2 "logs" rfl]
    rfl

/-- C5: a root=false call sets the severity threshold of the name-keyed
logger and changes nothing else: the sinks and the propagation flag of that
logger are untouched (so repeated root=false calls never accumulate
duplicate sinks), every other logger is untouched, and the directories,
files, atexit registrations, console output and clock are untouched. -/
theorem non_root_call_frame (w : World) (name : String) (level : Nat)
    (log_dir : Option String) :
    ((get_logger name level false log_dir w).loggers name).level = level ∧
    ((get_logger name level false log_dir w).loggers name).handlers =
      (w.loggers name).handlers ∧
    ((get_logger name level false log_dir w).loggers name).propagate =
      (w.loggers name).propagate ∧
    (∀ n, n ≠ name → (get_logger name level false log_dir w).loggers n = w.loggers n) ∧
    (get_logger name level false log_dir w).dirs = w.dirs ∧
    (get_logger name level false log_dir w).files = w.files ∧
    (get_logger name level false log_dir w).atexitStreams = w.atexitStreams ∧
    (get_logger name level false log_dir w).consoleOut = w.consoleOut ∧
    (get_logger name level false log_dir w).now = w.now := by
  refine ⟨?_, ?_, ?_, ?_, rfl, rfl, rfl, rfl, rfl⟩
  · simp [get_logger, World.setLogger]
  · simp [get_logger, World.setLogger]
  · simp [get_logger, World.setLogger]
  · intro n hn
    simp [get_logger, World.setLogger, hn]

/-- C5 witness: the frame conditions at a concrete world, including the
untouched-other-logger conjunct at a concrete other name. -/
theorem non_root_call_frame_wit :
    ((get_logger "app" 30 false none sampleWorld).loggers "app").level = 30 ∧
    ((get_logger "app" 30 false none sampleWorld).loggers "app").handlers = [] ∧
    (get_logger "app" 30 false none sampleWorld).loggers "other" = defaultLogger := by
  refine ⟨(non_root_call_frame sampleWorld "app" 30 none).1, ?_, ?_⟩
  · rw [(non_root_call_frame sampleWorld "app" 30 none).2.1]
    rfl
  · rw [(non_root_call_frame sampleWorld "app" 30 none).2.2.2.1 "other" (by decide)]
    rfl

/-- C6: a root-configuring call with a log directory: the directory exists
afterwards (created when absent, which is announced by an informational
console line emitted exactly in that case); the file
`<log_dir>/<DD-MM-YYYY_HH-MM-SS>.log` — `timestampFmt` renders
`datetime.now()` with strftime "%d-%m-%Y_%H-%M-%S" — is opened in write
mode (truncated to empty content); its stream is registered for closure at
process exit; the attached sinks are exactly the colored console sink and
the plain file sink; the file sink writes records of the plain form
"[MM/DD HH:MM:SS] <name> <LEVELNAME>: <message>", and such a record holds a
color escape character only when one of the record fields itself does, so
the formatter adds zero color escapes. -/
theorem root_call_log_dir_effects (w : World) (name : String) (level : Nat) (d : String)
    (h0 : (w.loggers name).handlers = []) (hlv : level ≤ INFO) :
    d ∈ (get_logger name level true (some d) w).dirs ∧
    (d ∉ w.dirs → (get_logger name level true (some d) w).consoleOut =
      w.consoleOut ++ [ColorFormatter.formatMessage (mkRecord name INFO
        ("Logging directory " ++ d ++ " does not exist and will be created") w.now)]) ∧
    (d ∈ w.dirs → (get_logger name level true (some d) w).consoleOut = w.consoleOut) ∧
    (get_logger name level true (some d) w).files
      (d ++ "/" ++ timestampFmt w.now ++ ".log") = some "" ∧
    (d ++ "/" ++ timestampFmt w.now ++ ".log") ∈
      (get_logger name level true (some d) w).atexitStreams ∧
    (get_logger name level true (some d) w).loggers name =
      { level := level,
        handlers :=
          [{ target := SinkTarget.console, level := level, formatter := FormatterKind.color },
           { target := SinkTarget.file (d ++ "/" ++ timestampFmt w.now ++ ".log"),
             level := level, formatter := FormatterKind.plain }],
        propagate := false } ∧
    (∀ elv msg, level ≤ elv →
      (emit (get_logger name level true (some d) w) name elv msg).files
          (d ++ "/" ++ timestampFmt w.now ++ ".log") =
        some (fileFmt (mkRecord name elv msg w.now) ++ "\n")) ∧
    (∀ r : LogRecord, fileFmt r =
      "[" ++ r.asctime ++ "] " ++ r.name ++ " " ++ levelName r.levelno ++ ": " ++ r.message) ∧
    (∀ r : LogRecord, r.levelno ∈ ([10, 20, 30, 40, 50] : List Nat) →
      '\x1b' ∉ r.asctime.data → '\x1b' ∉ r.name.data → '\x1b' ∉ r.message.data →
      '\x1b' ∉ (fileFmt r).data) := by
  have hlog : (get_logger name level true (some d) w).loggers name =
      { level := level,
        handlers :=
          [{ target := SinkTarget.console, level := level, formatter := FormatterKind.color },
           { target := SinkTarget.file (d ++ "/" ++ timestampFmt w.now ++ ".log"),
             level := level, formatter := FormatterKind.plain }],
        propagate := false } := by
    rw [get_logger_root_some_loggers]
    simp [h0]
  have hfiles : (get_logger name level true (some d) w).files
      (d ++ "/" ++ timestampFmt w.now ++ ".log") = some "" := by
    by_cases hd : d ∈ w.dirs
    · rw [(get_logger_old_dir_components w name level d hd).2.1]
      simp
    · rw [(get_logger_new_dir_components w name level d h0 hlv hd).2.1]
      simp
  have hnow : (get_logger name level true (some d) w).now = w.now := by
    by_cases hd : d ∈ w.dirs
    · exact (get_logger_old_dir_components w name level d hd).2.2.2.2
    · exact (get_logger_new_dir_components w name level d h0 hlv hd).2.2.2.2
  refine ⟨?_, ?_, ?_, hfiles, ?_, hlog, ?_, fun r => rfl, ?_⟩
  · by_cases hd : d ∈ w.dirs
    · rw [(get_logger_old_dir_components w name level d hd).1]
      exact hd
    · rw [(get_logger_new_dir_components w name level d h0 hlv hd).1]
      exact List.mem_cons_self ..
  · intro hd
    exact (get_logger_new_dir_components w name level d h0 hlv hd).2.2.2.1
  · intro hd
    exact (get_logger_old_dir_components w name level d hd).2.2.2.1
  · by_cases hd : d ∈ w.dirs
    · rw [(get_logger_old_dir_components w name level d hd).2.2.1]
      exact List.mem_cons_self ..
    · rw [(get_logger_new_dir_components w name level d h0 hlv hd).2.2.1]
      exact List.mem_cons_self ..
  · intro elv msg hle
    have He := emit_console_file_files (get_logger name level true (some d) w) name elv msg
      level (d ++ "/" ++ timestampFmt w.now ++ ".log") hlog hle hfiles
    rw [hnow] at He
    exact He
  · intro r hmem ha hn hm
    simp only [List.mem_cons, List.not_mem_nil, or_false] at hmem
    rcases hmem with h | h | h | h | h <;>
      simp [fileFmt, levelName, h, String.data_append, List.mem_append, ha, hn, hm]

/-- C6 witness: the root call with log directory "logs" at the concrete
world, including one plain line written through the file sink. -/
theorem root_call_log_dir_effects_wit :
    "logs" ∈ (get_logger "app" 10 true (some "logs") sampleWorld).dirs ∧
    (get_logger "app" 10 true (some "logs") sampleWorld).files
      "logs/12-10-2026_01-02-03.log" = some "" ∧
    "logs/12-10-2026_01-02-03.log" ∈
      (get_logger "app" 10 true (some "logs") sampleWorld).atexitStreams ∧
    (emit (get_logger "app" 10 true (some "logs") sampleWorld) "app" 20 "hello").files
      "logs/12-10-2026_01-02-03.log" = some "[10/12 01:02:03] app INFO: hello\n" := by
  have H := root_call_log_dir_effects sampleWorld "app" 10 "logs" (by decide) (by decide)
  refine ⟨H.1, H.2.2.2.1, H.2.2.2.2.1, ?_⟩
  have He := H.2.2.2.2.2.2.1 20 "hello" (by decide)
  exact He.trans (by decide)

/-- C7: the replacement callback installed while the scope is active first
advances the progress indicator by the completed batch size and then
forwards the notification — same callback object, same arguments — to the
original handler behavior, returning its result. -/
theorem tqdm_callback_forwards {α σ ρ : Type}
    (superCall : BatchCallbackSelf → α → ScopeState σ → ρ × ScopeState σ)
    (self : BatchCallbackSelf) (args : α) (s : ScopeState σ) :
    TqdmBatchCompletionCallback.call superCall self args s =
      superCall self args { s with tqdmPos := s.tqdmPos + self.batch_size } := rfl

/-- C8: sink attachment is not idempotent: starting from a logger with no
sinks, n successive root-configuring calls with the same name leave n
console sinks attached and, when log_dir is supplied each time, also n
file sinks. -/
theorem repeated_root_calls_accumulate (w : World) (name : String) (level : Nat)
    (log_dir : Option String) (n : Nat) (h0 : (w.loggers name).handlers = []) :
    consoleCount ((iterate_get_logger name level log_dir n w).loggers name) = n ∧
    (∀ d, log_dir = some d →
      fileCount ((iterate_get_logger name level log_dir n w).loggers name) = n) := by
  have h1 := iterate_get_logger_counts name level log_dir n w
  have hc0 : consoleCount (w.loggers name) = 0 := by simp [consoleCount, h0]
  have hf0 : fileCount (w.loggers name) = 0 := by simp [fileCount, h0]
  constructor
  · rw [h1.1, hc0]
    omega
  · rintro d rfl
    rw [h1.2, hf0]
    simp

/-- C8 witness: two successive root calls leave two console sinks and two
file sinks at the concrete world. -/
theorem repeated_root_calls_accumulate_wit :
    consoleCount ((iterate_get_logger "app" 10 (some "d") 2 sampleWorld).loggers "app") = 2 ∧
    fileCount ((iterate_get_logger "app" 10 (some "d") 2 sampleWorld).loggers "app") = 2 := by
  have H := repeated_root_calls_accumulate sampleWorld "app" 10 (some "d") 2 (by decide)
  exact ⟨H.1, H.2 "d" rfl⟩

/-- C9: when the log directory and the timestamp-named file already exist
(the sub-second collision of two root-configuring calls), the call opens
the file in write mode and truncates it to empty, destroying the previous
content rather than appending or failing, and prints nothing. -/
theorem timestamp_collision_truncates (w : World) (name : String) (level : Nat) (d : String)
    (c : String) (hd : d ∈ w.dirs)
    (_hf : w.files (d ++ "/" ++ timestampFmt w.now ++ ".log") = some c) :
    (get_logger name level true (some d) w).files
      (d ++ "/" ++ timestampFmt w.now ++ ".log") = some "" ∧
    (get_logger name level true (some d) w).consoleOut = w.consoleOut := by
  have H := get_logger_old_dir_components w name level d hd
  refine ⟨?_, H.2.2.2.1⟩
  rw [H.2.1]
  simp

/-- C9 witness: at a world where the timestamped file already holds content,
the call leaves it empty. -/
theorem timestamp_collision_truncates_wit :
    (get_logger "app" 10 true (some "logs") sampleWorldCollision).files
      "logs/12-10-2026_01-02-03.log" = some "" ∧
    (get_logger "app" 10 true (some "logs") sampleWorldCollision).consoleOut = [] :=
  timestamp_collision_truncates sampleWorldCollision "app" 10 "logs" "old content\n"
    (by decide) (by decide)

/-- C10: the informational directory-creation message is emitted while only
the console sink is attached: after a root call that creates log_dir, the
console output ends with that message and the newly created log file is
empty, so the message never appears in the file. -/
theorem dir_creation_message_not_in_file (w : World) (name : String) (level : Nat)
    (d : String) (h0 : (w.loggers name).handlers = []) (hd : d ∉ w.dirs)
    (hlv : level ≤ INFO) :
    (get_logger name level true (some d) w).files
      (d ++ "/" ++ timestampFmt w.now ++ ".log") = some "" ∧
    (get_logger name level true (some d) w).consoleOut =
      w.consoleOut ++ [ColorFormatter.formatMessage (mkRecord name INFO
        ("Logging directory " ++ d ++ " does not exist and will be created") w.now)] := by
  have H := get_logger_new_dir_components w name level d h0 hlv hd
  refine ⟨?_, H.2.2.2.1⟩
  rw [H.2.1]
  simp

/-- C10 witness: at the concrete world the message is on the console and the
fresh log file is empty. -/
theorem dir_creation_message_not_in_file_wit :
    (get_logger "app" 10 true (some "logs") sampleWorld).files
      "logs/12-10-2026_01-02-03.log" = some "" ∧
    (get_logger "app" 10 true (some "logs") sampleWorld).consoleOut =
      ["\x1b[92m[10/12 01:02:03 app]: \x1b[0mLogging directory logs does not exist and will be created"] := by
  have H := dir_creation_message_not_in_file sampleWorld "app" 10 "logs" (by decide) (by decide)
    (by decide)
  exact ⟨H.1, H.2.trans (by decide)⟩

end VHAP
